import Mathlib

/-!
Verification of the Huawei Solar Monitor application (src/app.js) against its
natural-language specification.

Shallow embedding conventions:
* JavaScript numbers are modelled as rationals.  Every arithmetic operation the
  program performs on register data stays far inside the exactly-representable
  range of IEEE double precision (raw register words are below 2^16, scale
  factors are 100 or 10), so rational arithmetic agrees with the source for all
  conclusions drawn here.
* The global modbus client is modelled by an explicit ClientState record.  A
  read on a client whose port is not open throws in modbus-serial; this is
  modelled by the read returning none.  When the link is up, the response of
  the remote device to a read request is given by a Device oracle; none models
  a thrown transport error.
* Async functions that resolve normally are total functions; a thrown and
  uncaught error is an Except.error value.  fetchSolarData catches every error
  and returns null, modelled as none.
* Each call of fetchSolarData also returns the list of requests it issued, in
  order, so that abort-on-failure behaviour is observable.
* Number.prototype.toFixed(2) produces the decimal string with two fraction
  digits nearest to the number, ties away from zero (upward for the
  non-negative values arising here); toFixed2 models the numeric value that
  the string denotes.
-/

namespace SolarMonitor

/-- Configured inverter host (src/app.js line 11, default value). -/
def INVERTER_IP : String := "192.168.1.100"

/-- Configured modbus port (line 12). -/
def MODBUS_PORT : Nat := 502

/-- Configured protocol unit identifier (line 13). -/
def UNIT_ID : Nat := 1

/-- Tariff configuration record (lines 16-19). -/
structure EnergyCost where
  purchase : ℚ
  sale : ℚ
deriving DecidableEq

/-- The ENERGY_COST constant (lines 16-19): purchase 0.25, sale 0.12 eur per kWh. -/
def ENERGY_COST : EnergyCost := { purchase := 25 / 100, sale := 12 / 100 }

/-- The object built at lines 40-45: one Reading per successful sampling cycle.
The timestamp (new Date() at line 44) is passed in as a natural number. -/
structure Reading where
  activePower : ℚ
  dailyEnergy : ℚ
  voltage : ℚ
  timestamp : Nat
deriving DecidableEq

/-- The object returned by calculateCosts (lines 58-62).  In the source the
three fields are the toFixed(2) strings; here each field holds the numeric
value that the string denotes. -/
structure Costs where
  dailySavings : ℚ
  potentialRevenue : ℚ
  energyProduced : ℚ
deriving DecidableEq

/-- State of the global modbusClient object: whether the TCP port is open and
which unit identifier has been bound by setID. -/
structure ClientState where
  connected : Bool
  unitId : Option Nat
deriving DecidableEq

/-- Behaviour of the remote inverter: the response words for a read request
(address, count), or none when the transport fails mid-request. -/
def Device : Type := Nat → Nat → Option (List Nat)

/-- Requests that the client code can issue on the wire. -/
inductive Event where
  | connectReq (host : String) (port : Nat)
  | readReq (addr count : Nat)
deriving DecidableEq

/-- Possible outcome of the transport-level connection attempt made by
modbusClient.connectTCP (line 24): success, or a thrown error message. -/
inductive ConnectOutcome where
  | ok
  | error (msg : String)
deriving DecidableEq

/-- modbusClient.connectTCP (line 24): on success the port is open; on failure
the error propagates to the caller. -/
def connectTCP (o : ConnectOutcome) (st : ClientState) : Except String ClientState :=
  match o with
  | ConnectOutcome.ok => Except.ok { st with connected := true }
  | ConnectOutcome.error msg => Except.error msg

/-- modbusClient.setID (line 25): binds the protocol unit identifier. -/
def setID (st : ClientState) (id : Nat) : ClientState := { st with unitId := some id }

/-- Log line printed at line 26. -/
def connLogText : String := "Connected to Huawei inverter"

/-- Log text printed at line 28 before the error value. -/
def connErrText : String := "Connection error: "

/-- connectToInverter (lines 22-30): try connectTCP and setID; any error is
caught and logged (line 27-29).  Returns the outcome of the async function
(always resolves, so always Except.ok), the new client state, and the log. -/
def connectToInverter (o : ConnectOutcome) (st : ClientState) :
    Except String Unit × ClientState × List String :=
  match connectTCP o st with
  | Except.ok st1 => (Except.ok (), setID st1 UNIT_ID, [connLogText])
  | Except.error msg => (Except.ok (), st, [connErrText ++ msg])

/-- modbusClient.readHoldingRegisters (lines 36-38): throws when the port is
not open; otherwise the device answers per the Device oracle. -/
def readHoldingRegisters (st : ClientState) (dev : Device) (addr count : Nat) :
    Option (List Nat) :=
  if st.connected then dev addr count else none

/-- fetchSolarData (lines 33-50): read the power, energy and voltage register
groups in order inside one try block; on the first thrown error the catch at
lines 46-49 returns null (none) and no later read is executed.  Decoding at
lines 41-43 multiplies the word data[0] of each response (modelled by
List.getD 0; a holding-register response to a count-c request carries c
words, so index 0 is always populated) by the scale factor of the group.
Also returns the list of read requests issued during the call. -/
def fetchSolarData (st : ClientState) (dev : Device) (now : Nat) :
    Option Reading × List Event :=
  match readHoldingRegisters st dev 32080 2 with
  | none => (none, [Event.readReq 32080 2])
  | some powerData =>
    match readHoldingRegisters st dev 32106 2 with
    | none => (none, [Event.readReq 32080 2, Event.readReq 32106 2])
    | some energyData =>
      match readHoldingRegisters st dev 32066 1 with
      | none => (none, [Event.readReq 32080 2, Event.readReq 32106 2, Event.readReq 32066 1])
      | some voltageData =>
        (some { activePower := (powerData.getD 0 0 : ℚ) * 100,
                dailyEnergy := (energyData.getD 0 0 : ℚ) * 100,
                voltage := (voltageData.getD 0 0 : ℚ) * 10,
                timestamp := now },
         [Event.readReq 32080 2, Event.readReq 32106 2, Event.readReq 32066 1])

/-- Numeric value of the string produced by toFixed(2): the multiple of 1/100
nearest to q, ties rounded upward. -/
def toFixed2 (q : ℚ) : ℚ := ((⌊q * 100 + 1 / 2⌋ : ℤ) : ℚ) / 100

/-- Line 54: const dailyEnergyKWh = data.dailyEnergy / 1000. -/
def dailyEnergyKWh (data : Reading) : ℚ := data.dailyEnergy / 1000

/-- Line 55: const savings = dailyEnergyKWh * ENERGY_COST.purchase. -/
def savings (data : Reading) : ℚ := dailyEnergyKWh data * ENERGY_COST.purchase

/-- Line 56: const revenue = dailyEnergyKWh * ENERGY_COST.sale. -/
def revenue (data : Reading) : ℚ := dailyEnergyKWh data * ENERGY_COST.sale

/-- calculateCosts (lines 53-63): computes the three derived quantities and
returns their toFixed(2) renderings. -/
def calculateCosts (data : Reading) : Costs :=
  { dailySavings := toFixed2 (savings data),
    potentialRevenue := toFixed2 (revenue data),
    energyProduced := toFixed2 (dailyEnergyKWh data) }

/-- The CostEstimator exactly as the specification words it (spec section 4.4):
energyProducedKWh = dailyEnergyWattHours / 1000, dailySavings =
energyProducedKWh * purchaseRate, potentialRevenue = energyProducedKWh *
saleRate.  Used to compare the code-level quantities against the spec. -/
def estimateSpec (dailyEnergyWattHours purchaseRate saleRate : ℚ) : ℚ × ℚ × ℚ :=
  (dailyEnergyWattHours / 1000,
   dailyEnergyWattHours / 1000 * purchaseRate,
   dailyEnergyWattHours / 1000 * saleRate)

/-- Most-significant-first concatenation of 16-bit words, as the specification
describes the decoding of register groups with word count above one. -/
def msbConcat (words : List Nat) : Nat :=
  words.foldl (fun acc w => acc * 65536 + w) 0

/-- Error text of the 500 response at line 75. -/
def fetchFailText : String := "Failed to fetch data"

/-- Response of the /api/solar-data route: either the JSON body spread from the
Reading together with the costs object, or a status plus error message. -/
inductive ApiResponse where
  | ok (data : Reading) (costs : Costs)
  | error (status : Nat) (msg : String)
deriving DecidableEq

/-- The /api/solar-data handler (lines 69-77): fetch, then either res.json of
the data with costs, or res.status(500).json of the error object.  The null
result of fetchSolarData is the only falsy value the if at line 71 can see. -/
def solarDataHandler (st : ClientState) (dev : Device) (now : Nat) : ApiResponse :=
  match (fetchSolarData st dev now).1 with
  | some data => ApiResponse.ok data (calculateCosts data)
  | none => ApiResponse.error 500 fetchFailText

/-- A device whose power response has both words nonzero, exposing the word
combination behaviour. -/
def devWide : Device := fun addr _count =>
  if addr = 32080 then some [1, 1]
  else if addr = 32106 then some [0, 0]
  else if addr = 32066 then some [0]
  else none

/-- The device of the end-to-end scenario: power word 50, energy word 120,
voltage word 230. -/
def devScenario : Device := fun addr _count =>
  if addr = 32080 then some [50, 0]
  else if addr = 32106 then some [120, 0]
  else if addr = 32066 then some [230]
  else none

/-- A device that answers the power read and then drops the link. -/
def devPartial : Device := fun addr _count =>
  if addr = 32080 then some [50, 0] else none

/-- A reading with one watt-hour of daily energy, whose derived savings fall
below a cent. -/
def rSmall : Reading :=
  { activePower := 0, dailyEnergy := 1, voltage := 0, timestamp := 0 }

/-- C1: for every register group read in a sampling cycle, the decoded
physical value equals the raw register value (the data[0] word of the response,
per lines 41-43) multiplied exactly by the scale factor of the group: active
power raw times 100 W, daily energy raw times 100 Wh, voltage raw times 10 V.
The arithmetic is exact rational multiplication, so there is no rounding loss
before the display-formatting step. -/
theorem C1_decode_exact (st : ClientState) (dev : Device) (now : Nat)
    (p e v : List Nat)
    (hp : readHoldingRegisters st dev 32080 2 = some p)
    (he : readHoldingRegisters st dev 32106 2 = some e)
    (hv : readHoldingRegisters st dev 32066 1 = some v) :
    (fetchSolarData st dev now).1 = some
      { activePower := (p.getD 0 0 : ℚ) * 100,
        dailyEnergy := (e.getD 0 0 : ℚ) * 100,
        voltage := (v.getD 0 0 : ℚ) * 10,
        timestamp := now } := by
  simp [fetchSolarData, hp, he, hv]

/-- Witness for C1 at the scenario device: the three reads succeed and the
decoded reading carries the exactly scaled values. -/
theorem C1_decode_exact_witness :
    (fetchSolarData ⟨true, some 1⟩ devScenario 0).1 = some
      { activePower := ((50 : ℚ)) * 100,
        dailyEnergy := ((120 : ℚ)) * 100,
        voltage := ((230 : ℚ)) * 10,
        timestamp := 0 } :=
  C1_decode_exact ⟨true, some 1⟩ devScenario 0 [50, 0] [120, 0] [230] rfl rfl rfl

/-- C2: whenever a register read fails partway through a sampling cycle, the
cycle returns the failure value null (none), the remaining reads are not
issued, and no Reading is produced, so a Reading is never assembled from a mix
of registers of different sampling attempts.  The issued-request list shows
exactly which reads were attempted. -/
theorem C2_abort_on_read_failure (st : ClientState) (dev : Device) (now : Nat) :
    (readHoldingRegisters st dev 32080 2 = none →
      fetchSolarData st dev now = (none, [Event.readReq 32080 2])) ∧
    (∀ p, readHoldingRegisters st dev 32080 2 = some p →
      readHoldingRegisters st dev 32106 2 = none →
      fetchSolarData st dev now =
        (none, [Event.readReq 32080 2, Event.readReq 32106 2])) ∧
    (∀ p e, readHoldingRegisters st dev 32080 2 = some p →
      readHoldingRegisters st dev 32106 2 = some e →
      readHoldingRegisters st dev 32066 1 = none →
      fetchSolarData st dev now =
        (none, [Event.readReq 32080 2, Event.readReq 32106 2,
                Event.readReq 32066 1])) := by
  refine ⟨fun h1 => by simp [fetchSolarData, h1],
          fun p h1 h2 => by simp [fetchSolarData, h1, h2],
          fun p e h1 h2 h3 => by simp [fetchSolarData, h1, h2, h3]⟩

/-- Witness for C2: the link drops after the power read, the cycle returns
none and the voltage read is never issued. -/
theorem C2_abort_on_read_failure_witness :
    fetchSolarData ⟨true, some 1⟩ devPartial 0 =
      (none, [Event.readReq 32080 2, Event.readReq 32106 2]) :=
  (C2_abort_on_read_failure ⟨true, some 1⟩ devPartial 0).2.1 [50, 0] rfl rfl

/-- C3: the cost estimator is a total function (it is defined for every
Reading, in particular all finite non-negative ones, and has no error path),
and the three quantities it computes at lines 54-56 are exactly the quantities
the specification prescribes: energyProducedKWh = dailyEnergyWattHours / 1000,
dailySavings = energyProducedKWh * purchaseRate, potentialRevenue =
energyProducedKWh * saleRate, at the configured tariff. -/
theorem C3_estimator_formulas (data : Reading) :
    (dailyEnergyKWh data, savings data, revenue data) =
      estimateSpec data.dailyEnergy ENERGY_COST.purchase ENERGY_COST.sale :=
  rfl

/-- C5: whenever the sampling cycle fails, the /api/solar-data route answers
with status 500 and the error body, and never with an ok response, so a failed
sample is never reported as a valid zero-power reading. -/
theorem C5_failure_is_distinguishable (st : ClientState) (dev : Device) (now : Nat)
    (h : (fetchSolarData st dev now).1 = none) :
    solarDataHandler st dev now = ApiResponse.error 500 fetchFailText ∧
    ∀ d c, solarDataHandler st dev now ≠ ApiResponse.ok d c := by
  refine ⟨by simp [solarDataHandler, h], fun d c => by simp [solarDataHandler, h]⟩

/-- Witness for C5: with a dropped link mid-cycle the route answers 500. -/
theorem C5_failure_is_distinguishable_witness :
    solarDataHandler ⟨true, some 1⟩ devPartial 0 =
      ApiResponse.error 500 fetchFailText :=
  (C5_failure_is_distinguishable ⟨true, some 1⟩ devPartial 0 rfl).1

/-- Rounding to a multiple of 1/100 with ties upward moves a rational by at
most 1/200. -/
theorem toFixed2_near (q : ℚ) : |toFixed2 q - q| ≤ 1 / 200 := by
  have h1 : ((⌊q * 100 + 1 / 2⌋ : ℤ) : ℚ) ≤ q * 100 + 1 / 2 := Int.floor_le _
  have h2 : q * 100 + 1 / 2 < ((⌊q * 100 + 1 / 2⌋ : ℤ) : ℚ) + 1 :=
    Int.lt_floor_add_one _
  rw [abs_le, toFixed2]
  constructor <;> nlinarith [h1, h2]

/-- C4 evaluation: with the power response words [1, 1] the code yields
activePower 100, the product of the first word alone with the scale factor,
while the most-significant-first concatenation of the two words scaled by 100
is 6553700; the second word of every two-word group is discarded at lines
41-42 even though two words were requested at lines 36-37. -/
theorem C4_second_word_discarded :
    ((fetchSolarData ⟨true, some 1⟩ devWide 0).1.map Reading.activePower) =
      some 100 ∧
    msbConcat [1, 1] * 100 = 6553700 ∧ (100 : ℚ) ≠ 6553700 := by
  refine ⟨?_, by decide, by norm_num⟩
  norm_num [fetchSolarData, readHoldingRegisters, devWide]

/-- C6 counterexample: invoked with the session not connected, the sampling
operation issues no connect request at all — its request trace is exactly one
read request, and the connect request with the configured host and port does
not occur in it — refuting that the operation first attempts a connect. -/
theorem C6_counterexample :
    fetchSolarData ⟨false, none⟩ devScenario 0 =
      (none, [Event.readReq 32080 2]) ∧
    Event.connectReq INVERTER_IP MODBUS_PORT ∉
      (fetchSolarData ⟨false, none⟩ devScenario 0).2 := by
  refine ⟨rfl, by decide⟩

/-- C6 amended: when the session is not connected, the sampling operation
attempts no connect (connection is attempted only once, at server startup);
its first register read fails, it returns the failure value null immediately,
no further reads are issued, and no partial Reading leaks. -/
theorem C6_no_reconnect (st : ClientState) (dev : Device) (now : Nat)
    (h : st.connected = false) :
    fetchSolarData st dev now = (none, [Event.readReq 32080 2]) := by
  simp [fetchSolarData, readHoldingRegisters, h]

/-- Witness for the amended C6 at a concrete disconnected state. -/
theorem C6_no_reconnect_witness :
    fetchSolarData ⟨false, none⟩ devPartial 0 =
      (none, [Event.readReq 32080 2]) :=
  C6_no_reconnect ⟨false, none⟩ devPartial 0 rfl

/-- C7 counterexample: on a reading of one watt-hour the estimator returns
dailySavings 0 although the unrounded savings quantity is 1/4000, so the value
the estimator produces is itself rounded to two decimal places — the rounding
is not confined to a separate display step. -/
theorem C7_counterexample :
    (calculateCosts rSmall).dailySavings = 0 ∧
    savings rSmall = 1 / 4000 ∧
    (calculateCosts rSmall).dailySavings ≠ savings rSmall := by
  refine ⟨by norm_num [calculateCosts, toFixed2, savings, dailyEnergyKWh,
    rSmall, ENERGY_COST], by norm_num [savings, dailyEnergyKWh, rSmall,
    ENERGY_COST], ?_⟩
  norm_num [calculateCosts, toFixed2, savings, dailyEnergyKWh, rSmall,
    ENERGY_COST]

/-- C7 amended: the estimator itself rounds all three cost values to two
decimal places via toFixed(2) and returns only the rounded values; each
returned field is an integer multiple of 1/100 and lies within 1/200 of the
exact unrounded quantity, which exists only inside the estimator. -/
theorem C7_outputs_are_rounded (data : Reading) :
    (∃ n : ℤ, (calculateCosts data).dailySavings = (n : ℚ) / 100) ∧
    (∃ n : ℤ, (calculateCosts data).potentialRevenue = (n : ℚ) / 100) ∧
    (∃ n : ℤ, (calculateCosts data).energyProduced = (n : ℚ) / 100) ∧
    |(calculateCosts data).dailySavings - savings data| ≤ 1 / 200 ∧
    |(calculateCosts data).potentialRevenue - revenue data| ≤ 1 / 200 ∧
    |(calculateCosts data).energyProduced - dailyEnergyKWh data| ≤ 1 / 200 :=
  ⟨⟨_, rfl⟩, ⟨_, rfl⟩, ⟨_, rfl⟩,
   toFixed2_near _, toFixed2_near _, toFixed2_near _⟩

/-- C8 end-to-end scenario: power word 50 decodes to 5000 W, energy word 120
to 12000 Wh, hence 12 kWh; with purchase rate 0.25 the daily savings are 3.00
and with sale rate 0.12 the potential revenue is 1.44. -/
theorem C8_end_to_end :
    (fetchSolarData ⟨true, some 1⟩ devScenario 7 ).1 = some
      { activePower := 5000, dailyEnergy := 12000, voltage := 2300,
        timestamp := 7 } ∧
    ENERGY_COST.purchase = 25 / 100 ∧ ENERGY_COST.sale = 12 / 100 ∧
    calculateCosts
      { activePower := 5000, dailyEnergy := 12000, voltage := 2300,
        timestamp := 7 } =
      { dailySavings := 3, potentialRevenue := 144 / 100,
        energyProduced := 12 } := by
  refine ⟨by norm_num [fetchSolarData, readHoldingRegisters, devScenario],
    rfl, rfl, ?_⟩
  norm_num [calculateCosts, toFixed2, savings, revenue, dailyEnergyKWh,
    ENERGY_COST]

/-- C9: the cost estimator is deterministic and idempotent — equal inputs give
identical outputs, and evaluating it twice on the same input gives the same
result as evaluating it once. -/
theorem C9_deterministic (d d1 : Reading) (h : d = d1) :
    calculateCosts d = calculateCosts d1 ∧
    calculateCosts d = calculateCosts d := ⟨by rw [h], rfl⟩

/-- Witness for C9 at a concrete reading. -/
theorem C9_deterministic_witness :
    calculateCosts rSmall = calculateCosts rSmall ∧
    calculateCosts rSmall = calculateCosts rSmall :=
  C9_deterministic rSmall rSmall rfl

/-- C10: connectToInverter never propagates an error to its caller — for every
outcome of the transport connection attempt the async function resolves
normally (Except.ok), and a connection failure is observable only as the
logged message while the client state is left unchanged. -/
theorem C10_connect_swallows_errors (o : ConnectOutcome) (st : ClientState) :
    (connectToInverter o st).1 = Except.ok () ∧
    (∀ msg, o = ConnectOutcome.error msg →
      (connectToInverter o st).2.1 = st ∧
      (connectToInverter o st).2.2 = [connErrText ++ msg]) := by
  cases o with
  | ok =>
    refine ⟨rfl, fun msg h => by cases h⟩
  | error m =>
    refine ⟨rfl, fun msg h => ?_⟩
    cases h
    exact ⟨rfl, rfl⟩

/-- Witness for C10: a refused connection resolves normally, leaves the state
disconnected, and is visible only in the log. -/
theorem C10_connect_swallows_errors_witness :
    (connectToInverter (ConnectOutcome.error ("refused")) ⟨false, none⟩).1 =
      Except.ok () ∧
    (connectToInverter (ConnectOutcome.error ("refused")) ⟨false, none⟩).2.1 =
      ⟨false, none⟩ ∧
    (connectToInverter (ConnectOutcome.error ("refused")) ⟨false, none⟩).2.2 =
      [connErrText ++ "refused"] :=
  ⟨(C10_connect_swallows_errors (ConnectOutcome.error ("refused"))
      ⟨false, none⟩).1,
   ((C10_connect_swallows_errors (ConnectOutcome.error ("refused"))
      ⟨false, none⟩).2 ("refused") rfl).1,
   ((C10_connect_swallows_errors (ConnectOutcome.error ("refused"))
      ⟨false, none⟩).2 ("refused") rfl).2⟩

end SolarMonitor
